import Mathlib

/-!
Shallow embedding of the Descent-Extractor GIF-conversion scripts
(src/transparency-maker.js, which contains both the transparency maker and
the texture gif creator, and src/transparent-gif-creator.js).

Filenames, base names and command lines are modelled as lists of characters
(`Name`).  JavaScript strings are lists of UTF-16 code units; for the
characters appearing here the two models agree.
-/

namespace DescentGif

/-- Filenames, base names, paths and command strings. -/
abbrev Name := List Char

/-- The literal extension ".png" as a character list. -/
def pngExt : Name := ['.', 'p', 'n', 'g']

/-- JS regexp `.` excludes the four ECMAScript line terminators, so the greedy
group `(.+)` of the filename pattern cannot contain one of them. -/
def isLineTerminator (c : Char) : Bool :=
  c = '\n' || c = '\r' || c = '\u2028' || c = '\u2029'

/-- Model of `parseInt` applied to a non-empty all-digit string (the only way
the scripts call it: on the `(\d+)` capture).  Digits accumulate in base 10;
leading zeros are dropped, so "07" and "7" both denote 7. -/
def digitsToNat (ds : Name) : Nat :=
  ds.foldl (fun acc c => acc * 10 + (c.toNat - 48)) 0

/-- Strip a trailing ".png" from a filename, `none` when the name does not end
in ".png".  This covers both checks of the source: `path.extname(file) ===
'.png'` and the `\.png$` tail of the regex (for any name the regex can match,
the two agree: the character before the final ".png" is a digit, so the dot is
never the leading dot of a dotfile). -/
def stripPngExt (file : Name) : Option Name :=
  match file.reverse with
  | 'g' :: 'n' :: 'p' :: '.' :: rest => some rest.reverse
  | _ => none

/-- The stem split performed by the greedy regex `^(.+)_(\d+)$` on the stem:
because `(.+)` is greedy, the underscore chosen is the last underscore whose
suffix is a non-empty digit run, i.e. the split sits just before the maximal
trailing digit run.  The base `(.+)` must be non-empty and free of line
terminators (JS `.`); the digit run `(\d+)` must be non-empty. -/
def splitStem (stem : Name) : Option (Name × Name) :=
  let r := stem.reverse
  let ds := r.takeWhile Char.isDigit
  match r.dropWhile Char.isDigit with
  | '_' :: before =>
      if ds ≠ [] ∧ before ≠ [] ∧ before.all (fun c => !(isLineTerminator c)) then
        some (before.reverse, ds.reverse)
      else none
  | _ => none

/-- Model of the per-file match `file.match(/^(.+)_(\d+)\.png$/)` guarded by
`path.extname(file) === '.png'`: yields the base name and the parsed frame
number. -/
def parseFrameFile (file : Name) : Option (Name × Nat) :=
  match stripPngExt file with
  | none => none
  | some stem =>
      match splitStem stem with
      | none => none
      | some (b, ds) => some (b, digitsToNat ds)

/-- One matched file, as pushed into a group by the source:
`{ file, frame, path }`. -/
structure Frame where
  file : Name
  frame : Nat
  path : Name
deriving Repr, DecidableEq

/-- Model of `path.join(dir, file)`.  Node also normalises the result and uses
the platform separator; no claim depends on the path contents, only on which
file each Frame came from. -/
def pathJoin (dir file : Name) : Name := dir ++ ['/'] ++ file

/-- Append a frame to the bucket of its base name, creating the bucket at the
end when absent: models `groups[baseName].push(...)` on a plain JS object.
(JS objects iterate array-index-like keys first; no claim depends on bucket
iteration order, only on bucket membership and contents.) -/
def addFrame (groups : List (Name × List Frame)) (b : Name) (fr : Frame) :
    List (Name × List Frame) :=
  match groups with
  | [] => [(b, [fr])]
  | (k, fs) :: rest =>
      if k = b then (k, fs ++ [fr]) :: rest else (k, fs) :: addFrame rest b fr

/-- The `files.forEach` accumulation pass of `groupImagesByBaseName` /
`groupTransparentImagesByBaseName`. -/
def collectGroups (dir : Name) (files : List Name) : List (Name × List Frame) :=
  files.foldl
    (fun gs file =>
      match parseFrameFile file with
      | some (b, n) => addFrame gs b { file := file, frame := n, path := pathJoin dir file }
      | none => gs)
    []

/-- Ordering used by the comparator `(a, b) => a.frame - b.frame`. -/
def frameLe (a b : Frame) : Prop := a.frame ≤ b.frame

instance : DecidableRel frameLe := fun a b => Nat.decLe a.frame b.frame

instance : IsTotal Frame frameLe := ⟨fun a b => Nat.le_total a.frame b.frame⟩

instance : IsTrans Frame frameLe := ⟨fun _ _ _ => Nat.le_trans⟩

/-- Model of `groups[baseName].sort((a, b) => a.frame - b.frame)`: a stable
sort ascending by frame number (JS `Array.prototype.sort` is stable). -/
def sortByFrame (fs : List Frame) : List Frame := List.insertionSort frameLe fs

/-- Function `groupImagesByBaseName` of src/transparency-maker.js lines 199-233 and the
textually identical `groupTransparentImagesByBaseName` of
src/transparent-gif-creator.js lines 13-47: bucket the matching files, sort
each bucket by frame number, and drop buckets with fewer than two frames
(`delete groups[baseName]` when `length < 2`). -/
def groupImagesByBaseName (dir : Name) (files : List Name) :
    List (Name × List Frame) :=
  ((collectGroups dir files).map (fun g => (g.1, sortByFrame g.2))).filter
    (fun g => 2 ≤ g.2.length)

/-! ## Tool availability probe (`checkDependencies`)

Both scripts contain the same probe (src/transparency-maker.js lines 330-401
and 92-149 of the first chunk, src/transparent-gif-creator.js lines 149-206):
a chain of `exec` callbacks that always calls `resolve` exactly once.  The
environment records which probe subprocesses would succeed and which paths
exist on disk. -/

/-- The outside world as seen by `checkDependencies`. -/
structure ProbeEnv where
  magickOk : Bool
  convertOk : Bool
  magickPathVar : Option Name
  fileExists : Name → Bool
  ffmpegOk : Bool

/-- Resolve value "imagemagick". -/
def bkMagick : Name := "imagemagick".toList

/-- Resolve value "imagemagick-convert". -/
def bkConvert : Name := "imagemagick-convert".toList

/-- Resolve value "imagemagick-path". -/
def bkPath : Name := "imagemagick-path".toList

/-- Resolve value "ffmpeg". -/
def bkFfmpeg : Name := "ffmpeg".toList

/-- The hard-coded `commonPaths` array of well-known Windows install
locations, in source order. -/
def commonPaths : List Name :=
  ["C:\\Program Files\\ImageMagick-7.1.2-Q16-HDRI\\magick.exe".toList,
   "C:\\Program Files\\ImageMagick-7.1.1-Q16-HDRI\\magick.exe".toList,
   "C:\\Program Files\\ImageMagick-7.1.0-Q16-HDRI\\magick.exe".toList,
   "C:\\Program Files\\ImageMagick\\magick.exe".toList,
   "C:\\ImageMagick\\magick.exe".toList]

/-- Wrapping in double quotes, as in `global.imageMagickPath =
`\x22$\x7bmagickPath\x7d\x22``. -/
def quoteName (p : Name) : Name := '"' :: (p ++ ['"'])

/-- Step 3 of the probe: `process.env.MAGICK_PATH`, accepted when the
variable is set, truthy (non-empty — `if (magickPath && ...)`) and the path
exists on disk. -/
def magickPathStep (e : ProbeEnv) : Option Name :=
  match e.magickPathVar with
  | none => none
  | some p => if p ≠ [] ∧ e.fileExists p = true then some p else none

/-- Result of one `checkDependencies` call: the value passed to `resolve`
(`none` models `resolve(null)`) and the value of `global.imageMagickPath`
after the call. -/
structure ProbeResult where
  resolved : Option Name
  imageMagickPath : Option Name
deriving Repr, DecidableEq

/-- Probe `checkDependencies` (identical in both scripts up to logging): try
`magick -version`, then `convert -version`, then `MAGICK_PATH`, then the
`commonPaths` loop (first existing wins, `break`), then `ffmpeg -version`,
else resolve `null`.  `g0` is `global.imageMagickPath` before the call; only
the two path-probe steps assign it (wrapped in quotes). -/
def checkDependencies (e : ProbeEnv) (g0 : Option Name) : ProbeResult :=
  if e.magickOk then ⟨some bkMagick, g0⟩
  else if e.convertOk then ⟨some bkConvert, g0⟩
  else
    match magickPathStep e with
    | some p => ⟨some bkPath, some (quoteName p)⟩
    | none =>
        match commonPaths.find? (fun q => e.fileExists q) with
        | some q => ⟨some bkPath, some (quoteName q)⟩
        | none =>
            if e.ffmpegOk then ⟨some bkFfmpeg, g0⟩ else ⟨none, g0⟩

/-! ## Backend command construction (primary backend)

`createGifWithImageMagick` (src/transparency-maker.js lines 235-258) and
`createTransparentGifWithImageMagick` (src/transparent-gif-creator.js lines
49-73) build one shell command from the frame paths; the head of the command
is `global.imageMagickPath` when that global is set and the literal `magick`
otherwise. -/

/-- The joined argument `frames.map(frame => quoted path).join(' ')`. -/
def inputFilesArg (frames : List Frame) : Name :=
  (List.intersperse [' '] (frames.map (fun f => quoteName f.path))).flatten

/-- Command string of `createGifWithImageMagick` (delay 10, with
`-coalesce -layers optimize`). -/
def createGifCommand (globalPath : Option Name) (frames : List Frame)
    (outputPath : Name) : Name :=
  match globalPath with
  | some g => g ++ " -delay 10 -loop 0 -dispose previous ".toList ++ inputFilesArg frames
      ++ " -coalesce -layers optimize ".toList ++ quoteName outputPath
  | none => "magick -delay 10 -loop 0 -dispose previous ".toList ++ inputFilesArg frames
      ++ " -coalesce -layers optimize ".toList ++ quoteName outputPath

/-- Command string of `createTransparentGifWithImageMagick` (delay 20, no
layer optimization). -/
def createTransparentGifCommand (globalPath : Option Name) (frames : List Frame)
    (outputPath : Name) : Name :=
  match globalPath with
  | some g => g ++ " -delay 20 -loop 0 -dispose previous ".toList ++ inputFilesArg frames
      ++ [' '] ++ quoteName outputPath
  | none => "magick -delay 20 -loop 0 -dispose previous ".toList ++ inputFilesArg frames
      ++ [' '] ++ quoteName outputPath

/-! ## Fallback backend (FFmpeg) and its temporary-file cleanup

`createGifWithFFmpeg` (src/transparency-maker.js lines 260-298) writes a
manifest, runs the palette pass, and only when that pass succeeded runs the
encode pass whose callback deletes the two temporary files inside
`try ... catch (e) \x7b\x7d`.  `createTransparentGifWithFFmpeg`
(src/transparent-gif-creator.js lines 74-104) runs both passes as one shell
command `paletteCmd && gifCmd` and deletes the temporaries in that single
callback, reached on success and on failure alike. -/

/-- Input directory of the gif creator: `./converted/textures`. -/
def texturesDir : Name := "./converted/textures".toList

/-- Output directory of the gif creator: `./converted/gifs`. -/
def gifsOutputDir : Name := "./converted/gifs".toList

/-- Input directory of the transparent gif creator: `./converted/transparent`. -/
def transparentDir : Name := "./converted/transparent".toList

/-- Output directory of the transparent gif creator:
`./converted/transparent-gifs`. -/
def transparentGifsOutputDir : Name := "./converted/transparent-gifs".toList

/-- The outside world as seen by one fallback (FFmpeg) invocation:
whether each of the two passes would succeed, and whether each `unlinkSync`
would return normally rather than throw. -/
structure FFmpegEnv where
  pass1Ok : Bool
  pass2Ok : Bool
  unlinkListOk : Bool
  unlinkPaletteOk : Bool

/-- Observable outcome of one fallback invocation: whether the promise
resolves (`true`) or rejects (`false`), and the temporary files on which
deletion was attempted, in order. -/
structure FFmpegOutcome where
  success : Bool
  deletionsAttempted : List Name
deriving Repr, DecidableEq

/-- The `try \x7b unlinkSync(list); unlinkSync(palette) \x7d catch (e) \x7b\x7d`
block: deleting the list file is always attempted; the palette deletion is
attempted only when the first `unlinkSync` did not throw (a throw jumps to
the empty catch). -/
def cleanupAttempts (e : FFmpegEnv) (listFile paletteFile : Name) : List Name :=
  listFile :: (if e.unlinkListOk then [paletteFile] else [])

/-- Fallback `createGifWithFFmpeg`: manifest `<base>_list.txt` and palette
`<base>_palette.png` under `./converted/gifs`; when the palette pass fails
the function rejects at once, before the cleanup code, so nothing is
deleted; otherwise the encode-pass callback attempts the cleanup and the
promise settles by `error2` alone (unlink outcomes are swallowed). -/
def createGifWithFFmpeg (e : FFmpegEnv) (baseName : Name) : FFmpegOutcome :=
  let listFile := pathJoin gifsOutputDir (baseName ++ "_list.txt".toList)
  let paletteFile := pathJoin gifsOutputDir (baseName ++ "_palette.png".toList)
  if e.pass1Ok then
    ⟨e.pass2Ok, cleanupAttempts e listFile paletteFile⟩
  else
    ⟨false, []⟩

/-- Fallback `createTransparentGifWithFFmpeg`: manifest `<base>_list.txt` and palette
`<manifest>.palette.png` under `./converted/transparent-gifs`; both passes run
as `paletteCmd && gifCmd`, whose callback always attempts the cleanup and then
settles the promise by the combined exit status alone. -/
def createTransparentGifWithFFmpeg (e : FFmpegEnv) (baseName : Name) : FFmpegOutcome :=
  let listFile := pathJoin transparentGifsOutputDir (baseName ++ "_list.txt".toList)
  let paletteFile := listFile ++ ".palette.png".toList
  ⟨e.pass1Ok && e.pass2Ok, cleanupAttempts e listFile paletteFile⟩

/-! ## Per-group driver loop (`createGifs` / `createTransparentGifs`)

src/transparency-maker.js lines 300-328 and
src/transparent-gif-creator.js lines 106-146: for each group try the
ImageMagick backend; on rejection try the FFmpeg backend; on a second
rejection increment the failure counter and move on. -/

/-- Which backend one invocation used. -/
inductive ToolKind where
  | imagemagick
  | ffmpeg
deriving Repr, DecidableEq

/-- The outside world as seen by the driver loop: whether each backend would
succeed on each group's base name. -/
structure GifEnv where
  imOk : Name → Bool
  ffOk : Name → Bool

/-- Running state of the loop: the backend invocations performed so far, in
order, and the two counters. -/
structure RunAcc where
  attempts : List (ToolKind × Name)
  successCount : Nat
  failCount : Nat
deriving Repr, DecidableEq

/-- One iteration of the `for (const baseName of groupNames)` body: the
primary backend is always invoked; the fallback is invoked exactly when the
primary rejected; the counters record the joint outcome. -/
def processOneGroup (e : GifEnv) (acc : RunAcc) (b : Name) : RunAcc :=
  if e.imOk b then
    ⟨acc.attempts ++ [(ToolKind.imagemagick, b)], acc.successCount + 1, acc.failCount⟩
  else if e.ffOk b then
    ⟨acc.attempts ++ [(ToolKind.imagemagick, b), (ToolKind.ffmpeg, b)],
      acc.successCount + 1, acc.failCount⟩
  else
    ⟨acc.attempts ++ [(ToolKind.imagemagick, b), (ToolKind.ffmpeg, b)],
      acc.successCount, acc.failCount + 1⟩

/-- The whole loop over the group names (the shared shape of `createGifs` and
`createTransparentGifs`). -/
def runGroups (e : GifEnv) (names : List Name) : RunAcc :=
  names.foldl (processOneGroup e) ⟨[], 0, 0⟩

/-- The invocations one group name contributes. -/
def attemptsFor (e : GifEnv) (b : Name) : List (ToolKind × Name) :=
  if e.imOk b then [(ToolKind.imagemagick, b)]
  else [(ToolKind.imagemagick, b), (ToolKind.ffmpeg, b)]

/-! ## Whole-script runs (`main` plus module-load side effects)

src/transparent-gif-creator.js lines 8-11 and 208-228, and the gif-creator
chunk of src/transparency-maker.js lines 194-197 and 403-451.  Each script
first runs its top-level code — which creates the output directory when it is
missing, before `main` is ever called — and then `main`. -/

/-- Observable stages of a run, in the order they happen. -/
inductive Step where
  | makeOutputDir
  | validateInput
  | probeTools
  | buildGroups
  | processGroup (b : Name)
  | tally
deriving Repr, DecidableEq

/-- The outside world as seen by one whole script run. -/
structure ScriptEnv where
  outputDirExists : Bool
  inputDirExists : Bool
  probe : ProbeEnv
  files : List Name
  backends : GifEnv

/-- Observable outcome of one whole script run: the process exit code, the
stages performed in order, and whether the output directory was created. -/
structure ScriptResult where
  exitCode : Nat
  steps : List Step
  outputDirCreated : Bool
deriving Repr, DecidableEq

/-- The module-load prologue shared by both scripts:
`if (!fs.existsSync(outputDir)) fs.mkdirSync(outputDir, ...)` runs before
`main`, whatever `main` later does. -/
def loadSteps (e : ScriptEnv) : List Step :=
  if e.outputDirExists then [] else [Step.makeOutputDir]

/-- src/transparent-gif-creator.js `main`: validate `./converted/transparent`
(exit 1 when missing), await `checkDependencies` (exit 1 on `null`), then
`createTransparentGifs`, which groups, returns early with a plain message
when no group was found, otherwise runs the per-group loop and prints the
tally; `main` returning normally ends the process with exit code 0. -/
def runTransparentGifCreator (e : ScriptEnv) : ScriptResult :=
  let created := !e.outputDirExists
  if !e.inputDirExists then
    ⟨1, loadSteps e ++ [Step.validateInput], created⟩
  else
    match (checkDependencies e.probe none).resolved with
    | none => ⟨1, loadSteps e ++ [Step.validateInput, Step.probeTools], created⟩
    | some _ =>
        let groups := groupImagesByBaseName transparentDir e.files
        if groups.isEmpty then
          ⟨0, loadSteps e ++ [Step.validateInput, Step.probeTools, Step.buildGroups], created⟩
        else
          ⟨0, loadSteps e ++ [Step.validateInput, Step.probeTools, Step.buildGroups]
              ++ (runGroups e.backends (groups.map Prod.fst)).attempts.map
                  (fun a => Step.processGroup a.2)
              ++ [Step.tally], created⟩

/-- The gif-creator `main` (second chunk of src/transparency-maker.js):
validate `./converted/textures` (exit 1 when missing), build groups, return
cleanly when none were found — all BEFORE probing tools — then await
`checkDependencies`; when it resolves `null`, `main` calls
`installImageMagick()`, a function defined nowhere in the repository, so a
ReferenceError is thrown inside the `try`, the `catch` prints install advice
and calls `process.exit(1)`; otherwise the per-group loop runs and the tally
is printed. -/
def runGifCreator (e : ScriptEnv) : ScriptResult :=
  let created := !e.outputDirExists
  if !e.inputDirExists then
    ⟨1, loadSteps e ++ [Step.validateInput], created⟩
  else
    let groups := groupImagesByBaseName texturesDir e.files
    if groups.isEmpty then
      ⟨0, loadSteps e ++ [Step.validateInput, Step.buildGroups], created⟩
    else
      match (checkDependencies e.probe none).resolved with
      | none => ⟨1, loadSteps e ++ [Step.validateInput, Step.buildGroups, Step.probeTools], created⟩
      | some _ =>
          ⟨0, loadSteps e ++ [Step.validateInput, Step.buildGroups, Step.probeTools]
              ++ (runGroups e.backends (groups.map Prod.fst)).attempts.map
                  (fun a => Step.processGroup a.2)
              ++ [Step.tally], created⟩

/-! ## Helper lemmas -/

/-- Every group in the filtered result is the sorted version of a collected
bucket and has at least two frames. -/
theorem mem_groupImagesByBaseName {dir : Name} {files : List Name}
    {g : Name × List Frame} (hg : g ∈ groupImagesByBaseName dir files) :
    (∃ g0 ∈ collectGroups dir files, g = (g0.1, sortByFrame g0.2)) ∧ 2 ≤ g.2.length := by
  rw [groupImagesByBaseName, List.mem_filter] at hg
  obtain ⟨hmem, hlen⟩ := hg
  rw [List.mem_map] at hmem
  obtain ⟨g0, hg0, rfl⟩ := hmem
  exact ⟨⟨g0, hg0, rfl⟩, by simpa using hlen⟩

/-- Taking while a predicate holds skips over a block where it always holds. -/
theorem takeWhile_append_all {p : Char → Bool} {l1 : List Char} (l2 : List Char)
    (h : ∀ c ∈ l1, p c = true) :
    (l1 ++ l2).takeWhile p = l1 ++ l2.takeWhile p := by
  induction l1 with
  | nil => simp
  | cons a t ih =>
      have ha : p a = true := h a (by simp)
      simp [List.takeWhile_cons, ha, ih (fun c hc => h c (by simp [hc]))]

/-- Dropping while a predicate holds skips over a block where it always
holds. -/
theorem dropWhile_append_all {p : Char → Bool} {l1 : List Char} (l2 : List Char)
    (h : ∀ c ∈ l1, p c = true) :
    (l1 ++ l2).dropWhile p = l2.dropWhile p := by
  induction l1 with
  | nil => simp
  | cons a t ih =>
      have ha : p a = true := h a (by simp)
      simp [List.dropWhile_cons, ha, ih (fun c hc => h c (by simp [hc]))]

/-! ## Claim C1 -/

/-- C1: for every directory listing, every group returned by the grouping
operation is sorted ascending by numeric frame index and has at least two
members; moreover no size-2 bucket is dropped: any collected bucket of
exactly two frames appears (sorted) in the result. -/
theorem grouping_sorted_and_min_size (dir : Name) (files : List Name) :
    (∀ g ∈ groupImagesByBaseName dir files,
        List.Sorted frameLe g.2 ∧ 2 ≤ g.2.length) ∧
    (∀ b fs, (b, fs) ∈ collectGroups dir files → fs.length = 2 →
        (b, sortByFrame fs) ∈ groupImagesByBaseName dir files) := by
  constructor
  · intro g hg
    obtain ⟨⟨g0, _, rfl⟩, hlen⟩ := mem_groupImagesByBaseName hg
    exact ⟨List.sorted_insertionSort frameLe g0.2, hlen⟩
  · intro b fs hmem hlen
    rw [groupImagesByBaseName, List.mem_filter]
    refine ⟨List.mem_map.mpr ⟨(b, fs), hmem, rfl⟩, ?_⟩
    simp [sortByFrame, List.length_insertionSort, hlen]

/-- Frame literals for the C1 witness. -/
def wFrame0 : Frame :=
  { file := "d_0.png".toList, frame := 0, path := "./converted/textures/d_0.png".toList }

/-- Second frame literal for the C1 witness. -/
def wFrame1 : Frame :=
  { file := "d_1.png".toList, frame := 1, path := "./converted/textures/d_1.png".toList }

/-- Witness for C1 at the listing ["d_1.png", "d_0.png"]: its one group is
sorted and has two members. -/
theorem grouping_sorted_and_min_size_witness :
    List.Sorted frameLe [wFrame0, wFrame1] ∧
      2 ≤ ([wFrame0, wFrame1] : List Frame).length :=
  (grouping_sorted_and_min_size texturesDir
      ["d_1.png".toList, "d_0.png".toList]).1
    (['d'], [wFrame0, wFrame1]) (by decide)

/-! ## Claim C4 -/

/-- C4 as stated is false: two distinct filenames can parse to the same frame
index ("a_7.png" and "a_07.png" both give frame 7, since `parseInt` drops
leading zeros), so the group keeps a duplicated index and its sorted index
sequence [7, 7] is neither unique nor strictly increasing. -/
theorem grouping_unique_counterexample :
    (groupImagesByBaseName transparentDir
        ["a_7.png".toList, "a_07.png".toList]).map
        (fun g => (g.1, g.2.map Frame.frame)) = [(['a'], [7, 7])] ∧
    ¬ ([7, 7] : List Nat).Nodup ∧
    ¬ List.Sorted (fun a b : Nat => a < b) [7, 7] := by
  refine ⟨by decide, by decide, ?_⟩
  intro h
  exact absurd (List.rel_of_sorted_cons h 7 (by decide)) (by decide)

/-- C4 amended: every group's frame sequence is sorted non-decreasing by
index, and it is strictly increasing (hence the indices unique) whenever no
two members of the group carry the same parsed index. -/
theorem grouping_frames_nondecreasing (dir : Name) (files : List Name) :
    ∀ g ∈ groupImagesByBaseName dir files,
      List.Sorted frameLe g.2 ∧
      ((g.2.map Frame.frame).Nodup →
        List.Sorted (fun a b : Frame => a.frame < b.frame) g.2) := by
  intro g hg
  obtain ⟨⟨g0, _, rfl⟩, _⟩ := mem_groupImagesByBaseName hg
  refine ⟨List.sorted_insertionSort frameLe g0.2, fun hnd => ?_⟩
  have hle : List.Pairwise frameLe (sortByFrame g0.2) :=
    List.sorted_insertionSort frameLe g0.2
  have hne : List.Pairwise (fun a b : Frame => a.frame ≠ b.frame) (sortByFrame g0.2) :=
    (List.pairwise_map.mp hnd)
  exact (hle.and hne).imp (fun h => Nat.lt_of_le_of_ne h.1 h.2)

/-- Witness for C4 (amended) at the listing ["d_1.png", "d_0.png"], with the
distinct-index hypothesis discharged by computation. -/
theorem grouping_frames_nondecreasing_witness :
    List.Sorted frameLe [wFrame0, wFrame1] ∧
      List.Sorted (fun a b : Frame => a.frame < b.frame) [wFrame0, wFrame1] :=
  ⟨(grouping_frames_nondecreasing texturesDir
        ["d_1.png".toList, "d_0.png".toList]
      (['d'], [wFrame0, wFrame1]) (by decide)).1,
    (grouping_frames_nondecreasing texturesDir
        ["d_1.png".toList, "d_0.png".toList]
      (['d'], [wFrame0, wFrame1]) (by decide)).2 (by decide)⟩

/-! ## Claim C6 -/

/-- C6: the greedy `(.+)` binds the frame index to the last underscore-digit
run: any filename `s ++ "_" ++ ds ++ ".png"` with `ds` a non-empty digit run
and `s` a non-empty base (free of line terminators, which JS `.` cannot
match) parses to base `s` and frame `parseInt ds` — even when `s` itself ends
in an underscore-digit group.  In particular "room_12_3.png" parses as base
"room_12", frame 3, and such files are grouped under "room_12", not "room". -/
theorem parse_binds_last_digit_run (s ds : Name) (hs : s ≠ [])
    (hterm : s.all (fun c => !(isLineTerminator c)) = true)
    (hds : ds ≠ []) (hdig : ds.all Char.isDigit = true) :
    parseFrameFile (s ++ '_' :: (ds ++ pngExt)) = some (s, digitsToNat ds) ∧
    parseFrameFile "room_12_3.png".toList = some ("room_12".toList, 3) ∧
    (groupImagesByBaseName texturesDir
        ["room_12_3.png".toList, "room_12_4.png".toList]).map Prod.fst
      = ["room_12".toList] := by
  refine ⟨?_, by decide, by decide⟩
  have hdig' : ∀ c ∈ ds.reverse, Char.isDigit c = true := by
    intro c hc
    exact (List.all_eq_true.mp hdig) c (List.mem_reverse.mp hc)
  have hrev : (s ++ '_' :: (ds ++ pngExt)).reverse
      = 'g' :: 'n' :: 'p' :: '.' :: (ds.reverse ++ '_' :: s.reverse) := by
    simp [pngExt, List.reverse_append]
  have hstrip : stripPngExt (s ++ '_' :: (ds ++ pngExt)) = some (s ++ '_' :: ds) := by
    rw [stripPngExt, hrev]
    simp [List.reverse_append]
  have htake : ((s ++ '_' :: ds).reverse).takeWhile Char.isDigit = ds.reverse := by
    have : (s ++ '_' :: ds).reverse = ds.reverse ++ '_' :: s.reverse := by
      simp [List.reverse_append]
    rw [this, takeWhile_append_all _ hdig', List.takeWhile_cons]
    simp
  have hdrop : ((s ++ '_' :: ds).reverse).dropWhile Char.isDigit = '_' :: s.reverse := by
    have : (s ++ '_' :: ds).reverse = ds.reverse ++ '_' :: s.reverse := by
      simp [List.reverse_append]
    rw [this, dropWhile_append_all _ hdig', List.dropWhile_cons]
    simp
  have hsplit : splitStem (s ++ '_' :: ds) = some (s, ds) := by
    rw [splitStem]
    simp only [htake, hdrop]
    rw [if_pos]
    · simp
    · refine ⟨by simpa using hds, by simpa using hs, ?_⟩
      rw [List.all_eq_true]
      intro c hc
      exact (List.all_eq_true.mp hterm) c (List.mem_reverse.mp hc)
  rw [parseFrameFile, hstrip]
  simp [hsplit]

/-- Witness for C6 at base "room_12" and digit run "3". -/
theorem parse_binds_last_digit_run_witness :
    parseFrameFile ("room_12".toList ++ '_' :: (['3'] ++ pngExt))
      = some ("room_12".toList, digitsToNat ['3']) :=
  (parse_binds_last_digit_run "room_12".toList ['3'] (by decide) (by decide)
      (by decide) (by decide)).1

/-! ## Claim C3 -/

/-- C3: `checkDependencies` probes in order, stopping at the first success:
`magick -version`, then `convert -version`, then `MAGICK_PATH` (accepted only
when the path exists), then the fixed `commonPaths` list (first existing
wins), then `ffmpeg -version`, and resolves `null` when everything failed; on
success via the two path steps it records the (quoted) resolved executable
path in the process-wide `global.imageMagickPath`, which the command builders
of the subsequent invocations read as the command head. -/
theorem checkDependencies_probe_order (e : ProbeEnv) (g0 : Option Name) :
    (e.magickOk = true → checkDependencies e g0 = ⟨some bkMagick, g0⟩) ∧
    (e.magickOk = false → e.convertOk = true →
        checkDependencies e g0 = ⟨some bkConvert, g0⟩) ∧
    (∀ p, e.magickOk = false → e.convertOk = false → magickPathStep e = some p →
        checkDependencies e g0 = ⟨some bkPath, some (quoteName p)⟩) ∧
    (∀ q, e.magickOk = false → e.convertOk = false → magickPathStep e = none →
        commonPaths.find? (fun r => e.fileExists r) = some q →
        checkDependencies e g0 = ⟨some bkPath, some (quoteName q)⟩) ∧
    (e.magickOk = false → e.convertOk = false → magickPathStep e = none →
        commonPaths.find? (fun r => e.fileExists r) = none → e.ffmpegOk = true →
        checkDependencies e g0 = ⟨some bkFfmpeg, g0⟩) ∧
    (e.magickOk = false → e.convertOk = false → magickPathStep e = none →
        commonPaths.find? (fun r => e.fileExists r) = none → e.ffmpegOk = false →
        checkDependencies e g0 = ⟨none, g0⟩) ∧
    (∀ p frames out,
        createGifCommand (some p) frames out
          = p ++ " -delay 10 -loop 0 -dispose previous ".toList ++ inputFilesArg frames
              ++ " -coalesce -layers optimize ".toList ++ quoteName out ∧
        createTransparentGifCommand (some p) frames out
          = p ++ " -delay 20 -loop 0 -dispose previous ".toList ++ inputFilesArg frames
              ++ [' '] ++ quoteName out) := by
  refine ⟨fun h1 => by simp [checkDependencies, h1],
    fun h1 h2 => by simp [checkDependencies, h1, h2],
    fun p h1 h2 hp => by simp [checkDependencies, h1, h2, hp],
    fun q h1 h2 hp hq => by simp [checkDependencies, h1, h2, hp, hq],
    fun h1 h2 hp hq h5 => by simp [checkDependencies, h1, h2, hp, hq, h5],
    fun h1 h2 hp hq h5 => by simp [checkDependencies, h1, h2, hp, hq, h5],
    fun p frames out => ⟨rfl, rfl⟩⟩

/-- Witness for C3: with only the `magick -version` probe succeeding, the
probe resolves "imagemagick" and leaves the global path untouched. -/
theorem checkDependencies_probe_order_witness :
    checkDependencies ⟨true, false, none, fun _ => false, false⟩ none
      = ⟨some bkMagick, none⟩ :=
  (checkDependencies_probe_order ⟨true, false, none, fun _ => false, false⟩ none).1 rfl

/-! ## Claim C9 -/

/-- C9: the probe is total at its interface: whatever the environment, it
resolves with one of the four backend identifiers or with `null`; no probing
error escapes (the embedding is a total function because every path of the
source's callback chain calls `resolve` exactly once). -/
theorem checkDependencies_total (e : ProbeEnv) (g0 : Option Name) :
    (checkDependencies e g0).resolved = some bkMagick ∨
    (checkDependencies e g0).resolved = some bkConvert ∨
    (checkDependencies e g0).resolved = some bkPath ∨
    (checkDependencies e g0).resolved = some bkFfmpeg ∨
    (checkDependencies e g0).resolved = none := by
  by_cases h1 : e.magickOk
  · simp [checkDependencies, h1]
  by_cases h2 : e.convertOk
  · simp [checkDependencies, h1, h2]
  cases hp : magickPathStep e with
  | some p => simp [checkDependencies, h1, h2, hp]
  | none =>
    cases hq : commonPaths.find? (fun r => e.fileExists r) with
    | some q => simp [checkDependencies, h1, h2, hp, hq]
    | none =>
      by_cases h5 : e.ffmpegOk <;> simp [checkDependencies, h1, h2, hp, hq, h5]

/-! ## Claim C10 -/

/-- C10: when only the legacy `convert -version` probe succeeds, the probe
resolves "imagemagick-convert" without recording any path in
`global.imageMagickPath`, so the primary-backend command builders, seeing the
global unset, still head their command lines with the literal `magick`. -/
theorem convert_probe_still_uses_magick (e : ProbeEnv)
    (h1 : e.magickOk = false) (h2 : e.convertOk = true) :
    (checkDependencies e none).resolved = some bkConvert ∧
    (checkDependencies e none).imageMagickPath = none ∧
    (∀ frames out,
        (∃ t, createGifCommand none frames out = "magick ".toList ++ t) ∧
        (∃ t, createTransparentGifCommand none frames out = "magick ".toList ++ t)) := by
  refine ⟨by simp [checkDependencies, h1, h2], by simp [checkDependencies, h1, h2],
    fun frames out => ⟨?_, ?_⟩⟩
  · refine ⟨"-delay 10 -loop 0 -dispose previous ".toList ++ inputFilesArg frames
        ++ " -coalesce -layers optimize ".toList ++ quoteName out, ?_⟩
    show "magick -delay 10 -loop 0 -dispose previous ".toList ++ inputFilesArg frames
        ++ " -coalesce -layers optimize ".toList ++ quoteName out = _
    simp only [← List.append_assoc]
    rfl
  · refine ⟨"-delay 20 -loop 0 -dispose previous ".toList ++ inputFilesArg frames
        ++ [' '] ++ quoteName out, ?_⟩
    show "magick -delay 20 -loop 0 -dispose previous ".toList ++ inputFilesArg frames
        ++ [' '] ++ quoteName out = _
    simp only [← List.append_assoc]
    rfl

/-- Witness for C10 at a concrete environment where only `convert -version`
succeeds, with one concrete frame list and output path. -/
theorem convert_probe_still_uses_magick_witness :
    (checkDependencies ⟨false, true, none, fun _ => false, false⟩ none).resolved
        = some bkConvert ∧
    (checkDependencies ⟨false, true, none, fun _ => false, false⟩ none).imageMagickPath
        = none ∧
    (∃ t, createGifCommand none [wFrame0] ['o'] = "magick ".toList ++ t) ∧
    (∃ t, createTransparentGifCommand none [wFrame0] ['o'] = "magick ".toList ++ t) :=
  ⟨(convert_probe_still_uses_magick ⟨false, true, none, fun _ => false, false⟩ rfl rfl).1,
    (convert_probe_still_uses_magick ⟨false, true, none, fun _ => false, false⟩ rfl rfl).2.1,
    ((convert_probe_still_uses_magick ⟨false, true, none, fun _ => false, false⟩ rfl rfl).2.2
      [wFrame0] ['o']).1,
    ((convert_probe_still_uses_magick ⟨false, true, none, fun _ => false, false⟩ rfl rfl).2.2
      [wFrame0] ['o']).2⟩

/-! ## Claim C2 -/

/-- Closed form of the driver loop: the invocation trace is the concatenation
of the per-group blocks, and the counters add the per-group outcomes. -/
theorem foldl_processOneGroup (e : GifEnv) (names : List Name) (acc : RunAcc) :
    names.foldl (processOneGroup e) acc
      = ⟨acc.attempts ++ (names.map (attemptsFor e)).flatten,
         acc.successCount + (names.filter (fun b => e.imOk b || e.ffOk b)).length,
         acc.failCount + (names.filter (fun b => !e.imOk b && !e.ffOk b)).length⟩ := by
  induction names generalizing acc with
  | nil => simp
  | cons a t ih =>
      rw [List.foldl_cons, ih]
      by_cases h1 : e.imOk a
      · simp only [processOneGroup, attemptsFor, h1, if_true, List.filter_cons,
          Bool.true_or, List.map_cons, List.flatten_cons, RunAcc.mk.injEq]
        exact ⟨by simp, by simp <;> omega, by simp [h1]⟩
      · by_cases h2 : e.ffOk a <;>
          · simp only [processOneGroup, attemptsFor, h1, h2, if_true, if_false,
              List.filter_cons, List.map_cons, List.flatten_cons, RunAcc.mk.injEq]
            exact ⟨by simp [h1, h2], by simp [h1, h2] <;> omega, by simp [h1, h2] <;> omega⟩

/-- The trace of `runGroups` is the concatenation of the per-group blocks. -/
theorem runGroups_attempts (e : GifEnv) (names : List Name) :
    (runGroups e names).attempts = (names.map (attemptsFor e)).flatten := by
  rw [runGroups, foldl_processOneGroup]
  simp

/-- How often one block invokes the primary backend for base name `b`. -/
theorem count_im_attemptsFor (e : GifEnv) (a b : Name) :
    (attemptsFor e a).count (ToolKind.imagemagick, b) = if a = b then 1 else 0 := by
  by_cases hab : a = b
  · subst hab
    by_cases h1 : e.imOk a <;> simp [attemptsFor, h1, List.count_cons]
  · by_cases h1 : e.imOk a <;>
      simp [attemptsFor, h1, List.count_cons, Prod.ext_iff, hab, Ne.symm hab]

/-- How often one block invokes the fallback backend for base name `b`. -/
theorem count_ff_attemptsFor (e : GifEnv) (a b : Name) :
    (attemptsFor e a).count (ToolKind.ffmpeg, b)
      = if a = b ∧ e.imOk a = false then 1 else 0 := by
  by_cases hab : a = b
  · subst hab
    by_cases h1 : e.imOk a <;> simp [attemptsFor, h1, List.count_cons]
  · by_cases h1 : e.imOk a <;>
      simp [attemptsFor, h1, List.count_cons, Prod.ext_iff, hab, Ne.symm hab]

/-- Primary-backend invocation count over the whole trace. -/
theorem runGroups_count_im (e : GifEnv) (names : List Name) (b : Name) :
    (runGroups e names).attempts.count (ToolKind.imagemagick, b) = names.count b := by
  rw [runGroups_attempts]
  induction names with
  | nil => simp
  | cons a t ih =>
      by_cases hab : a = b
      · subst hab
        simp [List.count_append, ih, count_im_attemptsFor, List.count_cons]
        omega
      · simp [List.count_append, ih, count_im_attemptsFor, List.count_cons, hab,
          Ne.symm hab]

/-- Fallback-backend invocation count over the whole trace. -/
theorem runGroups_count_ff (e : GifEnv) (names : List Name) (b : Name) :
    (runGroups e names).attempts.count (ToolKind.ffmpeg, b)
      = if e.imOk b then 0 else names.count b := by
  rw [runGroups_attempts]
  induction names with
  | nil => simp
  | cons a t ih =>
      by_cases hab : a = b
      · subst hab
        by_cases h1 : e.imOk a <;>
          · simp [List.count_append, ih, count_ff_attemptsFor, List.count_cons, h1] <;>
              omega
      · by_cases h1 : e.imOk b <;>
          simp [List.count_append, ih, count_ff_attemptsFor, List.count_cons, hab,
            Ne.symm hab, h1]

/-- C2: in every run of the driver loop, every listed group gets its primary
invocation regardless of any other group's outcome; the fallback backend is
invoked exactly once per listed occurrence of a group whose primary failed
and never for a group whose primary succeeded; and the failure counter ends
at exactly the number of groups both of whose backends failed — the loop
continues past every failure. -/
theorem driver_fallback_policy (e : GifEnv) (names : List Name) :
    (∀ b ∈ names, (ToolKind.imagemagick, b) ∈ (runGroups e names).attempts) ∧
    (∀ b, (runGroups e names).attempts.count (ToolKind.imagemagick, b)
        = names.count b) ∧
    (∀ b, e.imOk b = false →
        (runGroups e names).attempts.count (ToolKind.ffmpeg, b) = names.count b) ∧
    (∀ b, e.imOk b = true →
        (runGroups e names).attempts.count (ToolKind.ffmpeg, b) = 0) ∧
    (runGroups e names).failCount
        = (names.filter (fun b => !e.imOk b && !e.ffOk b)).length := by
  refine ⟨?_, fun b => runGroups_count_im e names b,
    fun b hb => by rw [runGroups_count_ff, hb]; rfl,
    fun b hb => by rw [runGroups_count_ff, hb]; rfl, ?_⟩
  · intro b hb
    rw [runGroups_attempts, List.mem_flatten]
    refine ⟨attemptsFor e b, List.mem_map.mpr ⟨b, hb, rfl⟩, ?_⟩
    by_cases h1 : e.imOk b <;> simp [attemptsFor, h1]
  · rw [runGroups, foldl_processOneGroup]
    simp

/-- Witness for C2 at a two-group run where the primary backend fails on
"a" and succeeds on "b": "a" gets exactly one fallback invocation, "b" gets
none, both get their primary invocation, and one failure is tallied. -/
theorem driver_fallback_policy_witness :
    ((ToolKind.imagemagick, ['a']) ∈
        (runGroups ⟨fun n => n ≠ ['a'], fun _ => false⟩ [['a'], ['b']]).attempts) ∧
    ((runGroups ⟨fun n => n ≠ ['a'], fun _ => false⟩ [['a'], ['b']]).attempts.count
        (ToolKind.ffmpeg, ['a']) = [['a'], ['b']].count ['a']) ∧
    ((runGroups ⟨fun n => n ≠ ['a'], fun _ => false⟩ [['a'], ['b']]).attempts.count
        (ToolKind.ffmpeg, ['b']) = 0) :=
  ⟨(driver_fallback_policy ⟨fun n => n ≠ ['a'], fun _ => false⟩ [['a'], ['b']]).1
      ['a'] (by decide),
    (driver_fallback_policy ⟨fun n => n ≠ ['a'], fun _ => false⟩ [['a'], ['b']]).2.2.1
      ['a'] (by decide),
    (driver_fallback_policy ⟨fun n => n ≠ ['a'], fun _ => false⟩ [['a'], ['b']]).2.2.2.1
      ['b'] (by decide)⟩

/-! ## Claim C7 -/

/-- The manifest file of one gif-creator fallback invocation. -/
def gifListFile (b : Name) : Name := pathJoin gifsOutputDir (b ++ "_list.txt".toList)

/-- The palette file of one gif-creator fallback invocation. -/
def gifPaletteFile (b : Name) : Name :=
  pathJoin gifsOutputDir (b ++ "_palette.png".toList)

/-- The manifest file of one transparent-gif fallback invocation. -/
def tgifListFile (b : Name) : Name :=
  pathJoin transparentGifsOutputDir (b ++ "_list.txt".toList)

/-- The palette file of one transparent-gif fallback invocation. -/
def tgifPaletteFile (b : Name) : Name := tgifListFile b ++ ".palette.png".toList

/-- C7 as stated is false for `createGifWithFFmpeg`: when the first (palette)
pass fails, the function rejects before its cleanup code ever runs, so the
temporary manifest file is not deleted on that failure path — no deletion is
even attempted. -/
theorem ffmpeg_cleanup_counterexample :
    (createGifWithFFmpeg ⟨false, true, true, true⟩ ['a']).success = false ∧
    (createGifWithFFmpeg ⟨false, true, true, true⟩ ['a']).deletionsAttempted = [] := by
  constructor <;> rfl

/-- C7 amended: in the transparent-gif pipeline the manifest (and, when its
deletion does not throw first, the palette) deletion is attempted on both the
success and the failure path, and deletion failures are swallowed — the
promise settles by the pass outcomes alone; in the gif-creator pipeline the
same holds only once the palette pass has succeeded: its manifest deletion is
attempted exactly when pass 1 succeeded, and a pass-1 failure skips cleanup
entirely. -/
theorem ffmpeg_cleanup_policy (e : FFmpegEnv) (b : Name) :
    (tgifListFile b ∈ (createTransparentGifWithFFmpeg e b).deletionsAttempted) ∧
    (e.unlinkListOk = true →
        tgifPaletteFile b ∈ (createTransparentGifWithFFmpeg e b).deletionsAttempted) ∧
    ((createTransparentGifWithFFmpeg e b).success = (e.pass1Ok && e.pass2Ok)) ∧
    (gifListFile b ∈ (createGifWithFFmpeg e b).deletionsAttempted ↔ e.pass1Ok = true) ∧
    (e.pass1Ok = true → e.unlinkListOk = true →
        gifPaletteFile b ∈ (createGifWithFFmpeg e b).deletionsAttempted) ∧
    ((createGifWithFFmpeg e b).success = (e.pass1Ok && e.pass2Ok)) := by
  refine ⟨?_, ?_, rfl, ?_, ?_, ?_⟩
  · simp [createTransparentGifWithFFmpeg, cleanupAttempts, tgifListFile]
  · intro h
    simp [createTransparentGifWithFFmpeg, cleanupAttempts, h, tgifListFile,
      tgifPaletteFile]
  · by_cases h1 : e.pass1Ok
    · simp [createGifWithFFmpeg, cleanupAttempts, h1, gifListFile]
    · simp [createGifWithFFmpeg, cleanupAttempts, h1]
  · intro h1 h2
    simp [createGifWithFFmpeg, cleanupAttempts, h1, h2, gifListFile, gifPaletteFile]
  · by_cases h1 : e.pass1Ok <;> simp [createGifWithFFmpeg, h1]

/-- Witness for C7 (amended) at a failing transparent-gif invocation whose
unlink calls succeed: both temporaries are in the attempted-deletion list even
though the invocation fails. -/
theorem ffmpeg_cleanup_policy_witness :
    (tgifListFile ['a'] ∈
        (createTransparentGifWithFFmpeg ⟨false, false, true, true⟩ ['a']).deletionsAttempted) ∧
    (tgifPaletteFile ['a'] ∈
        (createTransparentGifWithFFmpeg ⟨false, false, true, true⟩ ['a']).deletionsAttempted) ∧
    (gifListFile ['a'] ∈
        (createGifWithFFmpeg ⟨true, false, true, true⟩ ['a']).deletionsAttempted) :=
  ⟨(ffmpeg_cleanup_policy ⟨false, false, true, true⟩ ['a']).1,
    (ffmpeg_cleanup_policy ⟨false, false, true, true⟩ ['a']).2.1 rfl,
    (ffmpeg_cleanup_policy ⟨true, false, true, true⟩ ['a']).2.2.2.1.mpr rfl⟩

/-! ## Claim C5 -/

/-- Concrete run environment: both directories missing, no tools, no files. -/
def envBothMissing : ScriptEnv :=
  ⟨false, false, ⟨false, false, none, fun _ => false, false⟩, [],
    ⟨fun _ => false, fun _ => false⟩⟩

/-- C5 as stated is false: the output directory is created by top-level code
when the module loads, before `main` checks the input directory, so a run
whose input directory is missing still creates the missing output directory
while exiting with code 1. -/
theorem output_dir_created_counterexample :
    (runTransparentGifCreator envBothMissing).exitCode = 1 ∧
    (runTransparentGifCreator envBothMissing).outputDirCreated = true ∧
    Step.makeOutputDir ∈ (runTransparentGifCreator envBothMissing).steps := by
  refine ⟨rfl, rfl, ?_⟩
  show Step.makeOutputDir ∈ [Step.makeOutputDir, Step.validateInput]
  simp

/-- C5 amended: the process exits 1 when the input directory is missing and
when no usable tool is found, and 0 on normal completion (including when
there is nothing to do); however the output directory is created at module
load whenever it is missing, regardless of the input directory. -/
theorem transparent_creator_exit_codes (e : ScriptEnv) :
    ((runTransparentGifCreator e).outputDirCreated = !e.outputDirExists) ∧
    (e.inputDirExists = false → (runTransparentGifCreator e).exitCode = 1) ∧
    (e.inputDirExists = true → (checkDependencies e.probe none).resolved = none →
        (runTransparentGifCreator e).exitCode = 1) ∧
    (∀ t, e.inputDirExists = true →
        (checkDependencies e.probe none).resolved = some t →
        (runTransparentGifCreator e).exitCode = 0) := by
  refine ⟨?_, ?_, ?_, ?_⟩
  · rw [runTransparentGifCreator]
    by_cases h1 : e.inputDirExists
    · simp only [h1]
      cases hr : (checkDependencies e.probe none).resolved with
      | none => simp
      | some t =>
          by_cases hg : (groupImagesByBaseName transparentDir e.files).isEmpty <;>
            simp [hg]
    · simp [h1]
  · intro h1
    simp [runTransparentGifCreator, h1]
  · intro h1 hr
    simp [runTransparentGifCreator, h1, hr]
  · intro t h1 hr
    rw [runTransparentGifCreator]
    simp only [h1, Bool.not_true, Bool.false_eq_true, if_false, hr]
    by_cases hg : (groupImagesByBaseName transparentDir e.files).isEmpty <;> simp [hg]

/-- Witness for C5 (amended): with the input directory present, a tool found
and nothing to convert, the run exits 0; and at `envBothMissing` the missing
input directory forces exit code 1. -/
theorem transparent_creator_exit_codes_witness :
    (runTransparentGifCreator
        ⟨true, true, ⟨true, false, none, fun _ => false, false⟩, [],
          ⟨fun _ => false, fun _ => false⟩⟩).exitCode = 0 ∧
    (runTransparentGifCreator envBothMissing).exitCode = 1 :=
  ⟨(transparent_creator_exit_codes
        ⟨true, true, ⟨true, false, none, fun _ => false, false⟩, [],
          ⟨fun _ => false, fun _ => false⟩⟩).2.2.2 bkMagick rfl rfl,
    (transparent_creator_exit_codes envBothMissing).2.1 rfl⟩

/-! ## Claim C8 -/

/-- Concrete run environment for the gif creator: directories present, no
matching files, every probe failing. -/
def envNoGroupsNoTools : ScriptEnv :=
  ⟨true, true, ⟨false, false, none, fun _ => false, false⟩, [],
    ⟨fun _ => false, fun _ => false⟩⟩

/-- C8 as stated is false for the gif-creator driver: with an existing input
directory, no matching files and no tool installed, the claimed order
(validate, then probe — fatal when none found — then build groups) would
terminate with exit code 1, but the driver builds groups first and returns
cleanly without ever probing: exit code 0 and no probe step. -/
theorem gifcreator_order_counterexample :
    (runGifCreator envNoGroupsNoTools).exitCode = 0 ∧
    Step.probeTools ∉ (runGifCreator envNoGroupsNoTools).steps ∧
    (runGifCreator envNoGroupsNoTools).steps = [Step.validateInput, Step.buildGroups] := by
  refine ⟨rfl, ?_, rfl⟩
  show Step.probeTools ∉ [Step.validateInput, Step.buildGroups]
  simp

/-- C8 amended: the transparent-gif driver follows the claimed order —
validate the input directory (exit 1 when missing), probe tools (exit 1 when
none found), build groups (clean informational exit 0 when none), then
process each group and print the tally; the gif-creator driver instead
validates, builds groups and exits cleanly when none are found BEFORE probing
tools, and exits 1 when the probe then finds nothing (its auto-install
attempt always fails: `installImageMagick` is not defined anywhere). -/
theorem driver_step_order (e : ScriptEnv) :
    (e.inputDirExists = false →
        runTransparentGifCreator e
          = ⟨1, loadSteps e ++ [Step.validateInput], !e.outputDirExists⟩) ∧
    (e.inputDirExists = true → (checkDependencies e.probe none).resolved = none →
        runTransparentGifCreator e
          = ⟨1, loadSteps e ++ [Step.validateInput, Step.probeTools],
              !e.outputDirExists⟩) ∧
    (∀ t, e.inputDirExists = true →
        (checkDependencies e.probe none).resolved = some t →
        groupImagesByBaseName transparentDir e.files = [] →
        runTransparentGifCreator e
          = ⟨0, loadSteps e ++ [Step.validateInput, Step.probeTools, Step.buildGroups],
              !e.outputDirExists⟩) ∧
    (∀ t g gs, e.inputDirExists = true →
        (checkDependencies e.probe none).resolved = some t →
        groupImagesByBaseName transparentDir e.files = g :: gs →
        runTransparentGifCreator e
          = ⟨0, loadSteps e ++ [Step.validateInput, Step.probeTools, Step.buildGroups]
                ++ (runGroups e.backends ((g :: gs).map Prod.fst)).attempts.map
                    (fun a => Step.processGroup a.2)
                ++ [Step.tally], !e.outputDirExists⟩) ∧
    (e.inputDirExists = true → groupImagesByBaseName texturesDir e.files = [] →
        runGifCreator e
          = ⟨0, loadSteps e ++ [Step.validateInput, Step.buildGroups],
              !e.outputDirExists⟩) ∧
    (∀ g gs, e.inputDirExists = true →
        groupImagesByBaseName texturesDir e.files = g :: gs →
        (checkDependencies e.probe none).resolved = none →
        runGifCreator e
          = ⟨1, loadSteps e ++ [Step.validateInput, Step.buildGroups, Step.probeTools],
              !e.outputDirExists⟩) := by
  refine ⟨?_, ?_, ?_, ?_, ?_, ?_⟩
  · intro h1
    simp [runTransparentGifCreator, h1]
  · intro h1 hr
    simp [runTransparentGifCreator, h1, hr]
  · intro t h1 hr hg
    simp [runTransparentGifCreator, h1, hr, hg]
  · intro t g gs h1 hr hg
    simp [runTransparentGifCreator, h1, hr, hg]
  · intro h1 hg
    simp [runGifCreator, h1, hg]
  · intro g gs h1 hg hr
    simp [runGifCreator, h1, hg, hr]

/-- Witness for C8 (amended): at `envBothMissing` the transparent-gif driver
stops right after validation with exit 1, and at `envNoGroupsNoTools` the
gif-creator driver exits 0 after validation and grouping without probing. -/
theorem driver_step_order_witness :
    runTransparentGifCreator envBothMissing
      = ⟨1, [Step.makeOutputDir, Step.validateInput], true⟩ ∧
    runGifCreator envNoGroupsNoTools
      = ⟨0, [Step.validateInput, Step.buildGroups], false⟩ :=
  ⟨(driver_step_order envBothMissing).1 rfl,
    (driver_step_order envNoGroupsNoTools).2.2.2.2.1 rfl rfl⟩

end DescentGif
